import Mathlib

/-!
Verification development for the PayAid AI Studio module.

The definitions below are a shallow embedding of the TypeScript source:

* `src/src/app/api/ai/chat/route.ts` — the chat orchestration pipeline
  (topic filter, business-context assembly, sufficiency check, provider
  fallback, cache write, interaction log).
* `src/unnamed/part_001` — the Twilio telephony webhook handler
  (`POST /api/calls/webhook` and `mapTwilioStatus`).
* `src/src/app/api/ai/usage/route.ts` and
  `src/src/app/api/ai/generate-image/route.ts` — the auth phase of the
  usage and image endpoints.

External collaborators that are not part of the repository snapshot
(the auth middleware, the semantic cache store, the context analyzer)
are modelled from the specification and carry a doc comment saying so.

JavaScript strings are modelled as Lean `String`; all character level
work is done on `List Char` with executable helpers so that concrete
runs of the embedded code reduce inside the kernel.
-/

namespace PayAid

/-! ### Character and string helpers (JS string primitives) -/

/-- JS `String.prototype.toLowerCase` restricted to ASCII, which is the
only alphabet the embedded code compares (keyword lists, status keys). -/
def charToLower (c : Char) : Char :=
  if 'A' ≤ c ∧ c ≤ 'Z' then Char.ofNat (c.toNat + 32) else c

/-- JS `String.prototype.toUpperCase` restricted to ASCII. -/
def charToUpper (c : Char) : Char :=
  if 'a' ≤ c ∧ c ≤ 'z' then Char.ofNat (c.toNat - 32) else c

def jsToLower (s : String) : String := String.mk (s.data.map charToLower)

def jsToUpper (s : String) : String := String.mk (s.data.map charToUpper)

/-- `pat` is a prefix of `l` (decidable, structural). -/
def charsPrefix : List Char → List Char → Bool
  | [], _ => true
  | _ :: _, [] => false
  | a :: as, b :: bs => a == b && charsPrefix as bs

/-- `pat` occurs somewhere in `l` (JS `String.prototype.includes`). -/
def charsInfix (pat : List Char) : List Char → Bool
  | [] => pat.isEmpty
  | b :: bs => charsPrefix pat (b :: bs) || charsInfix pat bs

/-- JS `a.includes(b)`. -/
def strIncludes (s pat : String) : Bool := charsInfix pat.data s.data

/-- JS whitespace for `trim` / `\s` as used by the embedded regexes. -/
def isJsSpace (c : Char) : Bool :=
  c == ' ' || c == '\t' || c == '\n' || c == '\r'

/-- JS `String.prototype.trim` (ASCII whitespace). -/
def jsTrim (s : String) : String :=
  String.mk (((s.data.dropWhile isJsSpace).reverse.dropWhile isJsSpace).reverse)

/-- Split on a newline character, JS `s.split('\n')`. -/
def splitLines : List Char → List (List Char)
  | [] => [[]]
  | c :: rest =>
    let r := splitLines rest
    if c == '\n' then [] :: r
    else
      match r with
      | h :: t => (c :: h) :: t
      | [] => [[c]]

def jsSplitNewline (s : String) : List String :=
  (splitLines s.data).map String.mk

/-- JS `Array.prototype.join(sep)` on strings. -/
def jsJoin (sep : String) (l : List String) : String :=
  match l with
  | [] => ""
  | h :: t => t.foldl (fun acc x => acc ++ sep ++ x) h

/-- JS `s.substring(0, n)`. -/
def jsTake (n : Nat) (s : String) : String := String.mk (s.data.take n)

/-- Case-insensitive containment, Prisma `contains` with `mode: 'insensitive'`. -/
def containsInsensitive (s pat : String) : Bool :=
  strIncludes (jsToLower s) (jsToLower pat)

/-! ### Number formatting

`Number.prototype.toLocaleString('en-IN')` groups the last three digits
and then pairs of digits (lakh/crore grouping).  Monetary amounts are
modelled as whole rupees (`Nat`), so `minimumFractionDigits: 2` renders
a constant `.00` fraction. -/

/-- Chunk a reversed digit list into pairs (beyond the last three digits). -/
def chunkTwos : List Char → List (List Char)
  | [] => []
  | [a] => [[a]]
  | a :: b :: rest => [a, b] :: chunkTwos rest

/-- `n.toLocaleString('en-IN')` for a natural number. -/
def formatINR (n : Nat) : String :=
  let r := (toString n).data.reverse
  let segs := r.take 3 :: chunkTwos (r.drop 3)
  let segs := segs.filter (fun l => !l.isEmpty)
  jsJoin ("," : String) ((segs.map (fun l => String.mk l.reverse)).reverse)

/-- `n.toLocaleString('en-IN', { minimumFractionDigits: 2 })`. -/
def formatINR2 (n : Nat) : String := formatINR n ++ ".00"

/-! ### Regex-shaped extraction used by the rule-based responder

`getHelpfulResponse` (chat route lines 956-1035) pulls sections out of
the context block with three regexes of the shape
`/HEADER \(([^)]+)\):([\s\S]*?)(?=STOP1|STOP2)/` and one of the shape
`/Revenue \(Last 30 Days\): ₹([\d,]+)/`.  The scanners below implement
exactly that semantics: try each start position left to right; at a
position, the header must match literally, the first group takes the
non-empty run up to the next `)`, `):` must follow, and the second group
is the shortest (lazy) run of characters after which one of the stop
markers begins. -/

/-- Lazy `([\s\S]*?)` capture terminated by a `(?=stop1|stop2|…)` lookahead. -/
def lazyCaptureUntil (stops : List (List Char)) : List Char → Option (List Char)
  | [] => if stops.any (fun st => charsPrefix st []) then some [] else none
  | c :: rest =>
    if stops.any (fun st => charsPrefix st (c :: rest)) then some []
    else (lazyCaptureUntil stops rest).map (fun t => c :: t)

/-- One anchored attempt of the section regex at the current position. -/
def sectionTryAt (header : List Char) (stops : List (List Char)) (l : List Char) :
    Option (List Char) :=
  if charsPrefix header l then
    let l1 := l.drop header.length
    let inside := l1.takeWhile (fun c => c != ')')
    if inside.isEmpty then none
    else
      match l1.drop inside.length with
      | ')' :: ':' :: l3 => lazyCaptureUntil stops l3
      | _ => none
  else none

/-- Leftmost-first scan of the section regex over the whole string. -/
def sectionScan (header : List Char) (stops : List (List Char)) : List Char → Option (List Char)
  | [] => none
  | c :: rest =>
    match sectionTryAt header stops (c :: rest) with
    | some cap => some cap
    | none => sectionScan header stops rest

/-- The second capture group of `ctx.match(/header([^)]+)\):(lazy)(?=stops)/)`. -/
def matchSection (ctx header : String) (stops : List String) : Option String :=
  (sectionScan header.data (stops.map (fun s => s.data)) ctx.data).map String.mk

/-- One anchored attempt of `/Revenue \(Last 30 Days\): ₹([\d,]+)/`. -/
def revenueTryAt (marker l : List Char) : Option (List Char) :=
  if charsPrefix marker l then
    let ds := (l.drop marker.length).takeWhile (fun c => c.isDigit || c == ',')
    if ds.isEmpty then none else some ds
  else none

def revenueScan (marker : List Char) : List Char → Option (List Char)
  | [] => none
  | c :: rest =>
    match revenueTryAt marker (c :: rest) with
    | some ds => some ds
    | none => revenueScan marker rest

/-- The first capture group of the revenue regex (chat route line 974). -/
def matchRevenue (ctx : String) : Option String :=
  (revenueScan ("Revenue (Last 30 Days): ₹").data ctx.data).map String.mk

/-- `/^\d+\./.test(line)` on an already trimmed line. -/
def isNumberedLine (t : List Char) : Bool :=
  let ds := t.takeWhile Char.isDigit
  !ds.isEmpty && charsPrefix (['.'] : List Char) (t.drop ds.length)

def strNonempty (s : String) : Bool := !s.data.isEmpty

/-- `lines.filter(line => line.trim() && /^\d+\./.test(line.trim())).slice(0, 5)`. -/
def numberedLines (text : String) : List String :=
  ((jsSplitNewline text).filter
    (fun line => strNonempty (jsTrim line) && isNumberedLine (jsTrim line).data)).take 5

/-! ### The rule-based responder (`getHelpfulResponse`, chat route lines 956-1035) -/

def noDealsReply : String :=
  "I couldn't find active deals in your data. You can view all deals on the Deals page."

def noTasksReply : String :=
  "You currently have no pending tasks. Great job staying on top of things!"

def noInvoicesReply : String := "You have no overdue invoices. Excellent!"

def noRevenueReply : String :=
  "Revenue data is not available at the moment. Check the Dashboard or Accounting > Reports for financial information."

/-- The final fallback text of `getHelpfulResponse` (lines 1022-1034);
the first line ends with a trailing space as in the source. -/
def defaultHelpfulReply : String :=
  "I'm having trouble connecting to the AI service right now. \n\nTo enable full AI capabilities, please ensure your API keys are configured in the .env file:\n- GROQ_API_KEY (recommended - fastest)\n- OLLAMA_API_KEY (or local Ollama running)\n- OPENAI_API_KEY (optional fallback)\n\nOnce configured, I'll be able to provide specific answers based on your actual business data.\n\nFor now, you can:\n- Check the Dashboard for overview statistics\n- Use the navigation menu to access specific modules\n- View detailed information in each section"

/-- `getHelpfulResponse(query, businessContext)`: the deterministic
rule-based responder that pattern-matches the context block directly. -/
def getHelpfulResponse (query businessContext : String) : String :=
  let lowerQuery := jsToLower query
  let dealsText :=
    (matchSection businessContext ("ACTIVE DEALS (") [("PENDING INVOICES"), ("=== END")]).getD ""
  let tasksText :=
    (matchSection businessContext ("PENDING TASKS (")
      [("ACTIVE DEALS"), ("PENDING INVOICES"), ("=== END")]).getD ""
  let invoicesText :=
    (matchSection businessContext ("OVERDUE INVOICES (")
      [("PENDING TASKS"), ("ACTIVE DEALS"), ("=== END")]).getD ""
  let revenue := matchRevenue businessContext
  if strIncludes lowerQuery ("deal") || strIncludes lowerQuery ("top deal") ||
      strIncludes lowerQuery ("best deal") then
    if strNonempty dealsText && strNonempty (jsTrim dealsText) &&
        !strIncludes dealsText ("None") then
      let dealLines := numberedLines dealsText
      if dealLines.length > 0 then
        ("Here are your top deals:\n\n" ++ jsJoin ("\n") dealLines) ++
          "\n\nThese are the highest value deals in your pipeline."
      else noDealsReply
    else noDealsReply
  else if strIncludes lowerQuery ("task") || strIncludes lowerQuery ("todo") ||
      strIncludes lowerQuery ("attention") then
    if strNonempty tasksText && strNonempty (jsTrim tasksText) &&
        !strIncludes tasksText ("None") then
      let taskLines := numberedLines tasksText
      if taskLines.length > 0 then
        ("Here are the tasks that need your attention:\n\n" ++ jsJoin ("\n") taskLines) ++
          "\n\nThese are prioritized by importance and due date."
      else noTasksReply
    else noTasksReply
  else if strIncludes lowerQuery ("invoice") || strIncludes lowerQuery ("overdue") then
    if strNonempty invoicesText && strNonempty (jsTrim invoicesText) &&
        !strIncludes invoicesText ("None") then
      let invoiceLines := numberedLines invoicesText
      if invoiceLines.length > 0 then
        ("Here are your overdue invoices:\n\n" ++ jsJoin ("\n") invoiceLines) ++
          "\n\nPlease follow up with these customers to ensure timely payment."
      else noInvoicesReply
    else noInvoicesReply
  else if strIncludes lowerQuery ("revenue") || strIncludes lowerQuery ("income") ||
      strIncludes lowerQuery ("sales") then
    match revenue with
    | some r =>
      ("Your revenue for the last 30 days is ₹" ++ r) ++
        ". For detailed financial reports, check the Accounting > Reports section."
    | none => noRevenueReply
  else defaultHelpfulReply

/-! ### JS truthiness helpers for template rendering -/

/-- JS `s || d` on strings: the empty string is falsy. -/
def jsOr (s d : String) : String := if strNonempty s then s else d

/-- JS `x || d` where `x` is a nullable string column. -/
def jsOrOpt (o : Option String) (d : String) : String :=
  match o with
  | some s => jsOr s d
  | none => d

/-- Stable insertion: `x` goes before the first element it strictly
precedes, so equal keys keep their database order. -/
def insertBy (lt : α → α → Bool) (x : α) : List α → List α
  | [] => [x]
  | y :: ys => if lt x y then x :: y :: ys else y :: insertBy lt x ys

/-- Stable insertion sort used to model Prisma `orderBy`. -/
def sortBy (lt : α → α → Bool) : List α → List α
  | [] => []
  | x :: xs => insertBy lt x (sortBy lt xs)

/-- JS `list.map((x, idx) => f(idx, x))`. -/
def mapWithIndexFrom (f : Nat → α → β) (i : Nat) : List α → List β
  | [] => []
  | x :: xs => f i x :: mapWithIndexFrom f (i + 1) xs

def mapWithIndex (f : Nat → α → β) (l : List α) : List β := mapWithIndexFrom f 0 l

/-! ### Best-effort company/contact name extraction
(chat route lines 508-531)

The source runs three case-insensitive regexes over the user message:

1. `/(?:for|with|to|about)\s+([A-Z][a-zA-Z\s&]+?)(?:\s|$|proposal|quote|deal|contract)/i`
2. `/(?:proposal|quote|deal|contract)\s+(?:for|with|to)\s+([A-Z][a-zA-Z\s&]+?)(?:\s|$)/i`
3. `/([A-Z][a-zA-Z\s&]{2,}?)(?:\s+proposal|\s+quote|\s+deal)/i`

Each scanner below walks start positions left to right; at a position
the trigger words must match case-insensitively, `\s+` takes the
whitespace run, `[A-Z]` (with the `i` flag: any ASCII letter) starts the
capture, and the lazy quantifier extends the capture one character of
`[a-zA-Z\s&]` at a time until the terminating alternative matches. -/

def isAsciiLetter (c : Char) : Bool :=
  ('a' ≤ c && c ≤ 'z') || ('A' ≤ c && c ≤ 'Z')

def inNameClass (c : Char) : Bool := isAsciiLetter c || isJsSpace c || c == '&'

/-- Case-insensitive literal prefix test. -/
def ciPrefix (pat l : List Char) : Bool :=
  charsPrefix (pat.map charToLower) (l.map charToLower)

/-- Lazy capture: `acc` holds the reversed capture so far (at least the
regex's minimum); stop as soon as `term` accepts the rest, extend only
through the `[a-zA-Z\s&]` class, and fail otherwise. -/
def nameCaptureLoop (term : List Char → Bool) (acc : List Char) : List Char → Option (List Char)
  | [] => if term [] then some acc.reverse else none
  | c :: rest =>
    if term (c :: rest) then some acc.reverse
    else if inNameClass c then nameCaptureLoop term (c :: acc) rest
    else none

/-- Terminator of pattern 1: `(?:\s|$|proposal|quote|deal|contract)` (ci). -/
def p1Terminator (l : List Char) : Bool :=
  match l with
  | [] => true
  | c :: _ =>
    isJsSpace c || ciPrefix ("proposal").data l || ciPrefix ("quote").data l ||
      ciPrefix ("deal").data l || ciPrefix ("contract").data l

/-- Terminator of pattern 2: `(?:\s|$)`. -/
def p2Terminator (l : List Char) : Bool :=
  match l with
  | [] => true
  | c :: _ => isJsSpace c

/-- Terminator of pattern 3: `(?:\s+proposal|\s+quote|\s+deal)` (ci). -/
def p3Terminator (l : List Char) : Bool :=
  let ws := l.takeWhile isJsSpace
  let rest := l.drop ws.length
  !ws.isEmpty &&
    (ciPrefix ("proposal").data rest || ciPrefix ("quote").data rest ||
      ciPrefix ("deal").data rest)

/-- `[A-Z][a-zA-Z\s&]+?` (ci) with terminator `term`: first char a
letter, at least one capture-class char, then lazy expansion. -/
def captureNamePlus (term : List Char → Bool) (l : List Char) : Option (List Char) :=
  match l with
  | c0 :: c1 :: rest =>
    if isAsciiLetter c0 && inNameClass c1 then nameCaptureLoop term [c1, c0] rest else none
  | _ => none

/-- `[A-Z][a-zA-Z\s&]{2,}?` (ci) with terminator `term`. -/
def captureNameTwoPlus (term : List Char → Bool) (l : List Char) : Option (List Char) :=
  match l with
  | c0 :: c1 :: c2 :: rest =>
    if isAsciiLetter c0 && inNameClass c1 && inNameClass c2 then
      nameCaptureLoop term [c2, c1, c0] rest
    else none
  | _ => none

/-- After a trigger word: `\s+` then the capture. -/
def afterTrigger (term : List Char → Bool) (l : List Char) : Option (List Char) :=
  let ws := l.takeWhile isJsSpace
  if ws.isEmpty then none else captureNamePlus term (l.drop ws.length)

/-- Match a list of alternative trigger words at the current position and
return the rest of the input after the first one that fits. -/
def matchTrigger (triggers : List (List Char)) (l : List Char) : Option (List Char) :=
  match triggers with
  | [] => none
  | t :: ts => if ciPrefix t l then some (l.drop t.length) else matchTrigger ts l

def p1TryAt (l : List Char) : Option (List Char) :=
  match matchTrigger [("for").data, ("with").data, ("to").data, ("about").data] l with
  | some rest => afterTrigger p1Terminator rest
  | none => none

def p2TryAt (l : List Char) : Option (List Char) :=
  match matchTrigger [("proposal").data, ("quote").data, ("deal").data, ("contract").data] l with
  | some rest1 =>
    let ws := rest1.takeWhile isJsSpace
    if ws.isEmpty then none
    else
      match matchTrigger [("for").data, ("with").data, ("to").data] (rest1.drop ws.length) with
      | some rest2 => afterTrigger p2Terminator rest2
      | none => none
  | none => none

def p3TryAt (l : List Char) : Option (List Char) := captureNameTwoPlus p3Terminator l

/-- Leftmost-first scan of one pattern over all start positions. -/
def patternScan (tryAt : List Char → Option (List Char)) : List Char → Option (List Char)
  | [] => tryAt []
  | c :: rest =>
    match tryAt (c :: rest) with
    | some cap => some cap
    | none => patternScan tryAt rest

/-- `extractedNames` of `getBusinessContext` (lines 517-527): the trimmed
first capture of each matching pattern, plus the first token of a short
message that starts with an uppercase letter. -/
def extractedNames (userMessage : String) : List String :=
  let l := userMessage.data
  let fromPatterns :=
    ([patternScan p1TryAt l, patternScan p2TryAt l, patternScan p3TryAt l].filterMap id).map
      (fun cap => jsTrim (String.mk cap))
  let fromPatterns := fromPatterns.filter strNonempty
  let t := jsTrim userMessage
  if userMessage.length < 50 &&
      (match t.data with
       | c :: _ => 'A' ≤ c && c ≤ 'Z'
       | [] => false) then
    fromPatterns ++ [String.mk (t.data.takeWhile (fun c => !isJsSpace c))]
  else fromPatterns

/-- `searchTerms` (line 531). -/
def searchTerms (userMessage : String) : List String :=
  let names := extractedNames userMessage
  if names.isEmpty then [userMessage] else names

/-! ### Persistence rows and the database oracle

Row structures carry the columns the chat pipeline selects plus the
`tenantId` partition column (the spec: every entity is tenant-scoped).
`Except Unit` on each table models a failing query: the source awaits
each Prisma call inside one `try`, and any rejection reaches the
function-level catch. -/

/-- Timestamps: `ts` orders two dates, `locale` is what
`toLocaleDateString()` renders. -/
structure JsDate where
  ts : Int
  locale : String
deriving Repr, DecidableEq

structure TenantRow where
  id : String
  name : String
  gstin : Option String
  address : Option String
  city : Option String
  state : Option String
  postalCode : Option String
  country : Option String
  phone : Option String
  email : Option String
  website : Option String
deriving Repr, DecidableEq

structure ContactRow where
  tenantId : String
  id : String
  name : String
  company : Option String
  email : Option String
  phone : Option String
  address : Option String
  city : Option String
  state : Option String
  ctype : String
  status : String
  notes : Option String
  tags : List String
deriving Repr, DecidableEq

structure DealRow where
  tenantId : String
  contactId : String
  name : String
  value : Nat
  stage : String
  probability : Nat
  expectedCloseDate : Option JsDate
  createdAt : JsDate
  contactName : Option String
deriving Repr, DecidableEq

structure InteractionRow where
  tenantId : String
  contactId : String
  itype : String
  subject : Option String
  notes : Option String
  createdAt : JsDate
deriving Repr, DecidableEq

structure ProductRow where
  tenantId : String
  name : String
  description : Option String
  salePrice : Nat
  categories : List String
  totalSold : Nat
deriving Repr, DecidableEq

structure OrderRow where
  tenantId : String
  total : Nat
  createdAt : JsDate
  status : String
deriving Repr, DecidableEq

structure InvoiceRow where
  tenantId : String
  invoiceNumber : String
  total : Nat
  dueDate : Option JsDate
  customerName : Option String
  status : String
  paidAt : Option JsDate
deriving Repr, DecidableEq

structure TaskRow where
  tenantId : String
  title : String
  priority : String
  dueDate : Option JsDate
  contactName : Option String
  status : String
deriving Repr, DecidableEq

/-- The relational store seen by one request; `now` is `Date.now()`. -/
structure DB where
  tenants : Except Unit (List TenantRow)
  contacts : Except Unit (List ContactRow)
  deals : Except Unit (List DealRow)
  interactions : Except Unit (List InteractionRow)
  products : Except Unit (List ProductRow)
  orders : Except Unit (List OrderRow)
  invoices : Except Unit (List InvoiceRow)
  tasks : Except Unit (List TaskRow)
  now : Int

/-! ### The individual Prisma queries of `getBusinessContext` -/

/-- `prisma.contact.findMany` (lines 532-555): tenant filter plus an OR
of case-insensitive `contains` over the search terms, `take: 1`. -/
def contactMatchQuery (rows : List ContactRow) (tenantId : String) (terms : List String) :
    List ContactRow :=
  (rows.filter (fun c =>
    c.tenantId == tenantId &&
      terms.any (fun term =>
        containsInsensitive c.name term ||
          (match c.company with
           | some co => containsInsensitive co term
           | none => false)))).take 1

/-- `prisma.deal.findMany` for the matched contact (lines 561-576):
tenant and contact filter, newest first, `take: 3`. -/
def dealsForContactQuery (rows : List DealRow) (tenantId contactId : String) : List DealRow :=
  (sortBy (fun a b => b.createdAt.ts < a.createdAt.ts)
    (rows.filter (fun d => d.tenantId == tenantId && d.contactId == contactId))).take 3

/-- `prisma.interaction.findMany` (lines 582-594): filters by `contactId`
only — there is no tenant filter in the source. -/
def interactionsForContact (rows : List InteractionRow) (contactId : String) :
    List InteractionRow :=
  (sortBy (fun a b => b.createdAt.ts < a.createdAt.ts)
    (rows.filter (fun i => i.contactId == contactId))).take 5

/-- `prisma.product.findMany` (lines 600-610): tenant filter, best
sellers first, `take: 10`. -/
def productsQuery (rows : List ProductRow) (tenantId : String) : List ProductRow :=
  (sortBy (fun a b => b.totalSold < a.totalSold)
    (rows.filter (fun p => p.tenantId == tenantId))).take 10

/-- `prisma.invoice.findMany` with `status: 'overdue'` (lines 623-639). -/
def overdueInvoicesQuery (rows : List InvoiceRow) (tenantId : String) : List InvoiceRow :=
  (rows.filter (fun i => i.tenantId == tenantId && i.status == "overdue")).take 10

/-- `prisma.task.findMany` (lines 642-662): pending or in-progress,
priority descending then due date ascending (nulls last), `take: 10`. -/
def pendingTasksQuery (rows : List TaskRow) (tenantId : String) : List TaskRow :=
  let dueLt : Option JsDate → Option JsDate → Bool := fun a b =>
    match a, b with
    | some x, some y => x.ts < y.ts
    | some _, none => true
    | none, _ => false
  (sortBy (fun a b =>
      decide (b.priority < a.priority) ||
        (a.priority == b.priority && dueLt a.dueDate b.dueDate))
    (rows.filter (fun t =>
      t.tenantId == tenantId && (t.status == "pending" || t.status == "in_progress")))).take 10

/-- `prisma.deal.findMany` for top deals (lines 665-683): value
descending then newest, `take: 10`. -/
def recentDealsQuery (rows : List DealRow) (tenantId : String) : List DealRow :=
  (sortBy (fun a b => b.value < a.value || (a.value == b.value && b.createdAt.ts < a.createdAt.ts))
    (rows.filter (fun d => d.tenantId == tenantId))).take 10

/-- `prisma.order.findMany` for the 30-day revenue window (lines 686-696). -/
def recentOrdersQuery (rows : List OrderRow) (tenantId : String) (now : Int) : List OrderRow :=
  rows.filter (fun o =>
    o.tenantId == tenantId && now - 2592000000 ≤ o.createdAt.ts &&
      (o.status == "confirmed" || o.status == "shipped" || o.status == "delivered"))

/-- `prisma.invoice.findMany` for unpaid sent/draft invoices (lines 701-718). -/
def pendingInvoicesQuery (rows : List InvoiceRow) (tenantId : String) : List InvoiceRow :=
  (rows.filter (fun i =>
    i.tenantId == tenantId && (i.status == "sent" || i.status == "draft") &&
      i.paidAt == none)).take 10

/-! ### Rendering of the context block (chat route lines 722-796) -/

def renderDateOpt (d : Option JsDate) (fallback : String) : String :=
  match d with
  | some x => x.locale
  | none => fallback

/-- The `${tenant ? … : '- Business information not available'}` block. -/
def renderTenantBlock (tenant : Option TenantRow) : String :=
  match tenant with
  | some t =>
    ("\n- Business Name: " ++ t.name) ++
      ("\n- Address: " ++ jsOrOpt t.address ("N/A") ++ ", " ++ jsOrOpt t.city ("N/A") ++
        ", " ++ jsOrOpt t.state ("N/A") ++ " " ++ jsOrOpt t.postalCode ("")) ++
      ("\n- Contact: " ++ jsOrOpt t.phone ("N/A") ++ " | " ++ jsOrOpt t.email ("N/A")) ++
      ("\n- Website: " ++ jsOrOpt t.website ("N/A")) ++
      ("\n- GSTIN: " ++ jsOrOpt t.gstin ("N/A") ++ "\n")
  | none => "- Business information not available"

/-- One line of the `PAST INTERACTIONS` listing (line 769). -/
def renderInteractionLine (idx : Nat) (i : InteractionRow) : String :=
  (toString (idx + 1) ++ ". " ++ jsToUpper i.itype ++ ": " ++
      jsOrOpt i.subject ("No subject")) ++
    (" - " ++
      (match i.notes with
       | some n => if strNonempty n then jsTake 100 n else "No notes"
       | none => "No notes")) ++
    (" (" ++ i.createdAt.locale ++ ")")

/-- One line of the `AVAILABLE PRODUCTS/SERVICES` listing (line 777). -/
def renderProductLine (idx : Nat) (p : ProductRow) : String :=
  (toString (idx + 1) ++ ". " ++ p.name ++
      (match p.description with
       | some d => if strNonempty d then " - " ++ jsTake 80 d else ""
       | none => "")) ++
    (" - ₹" ++ formatINR p.salePrice) ++
    (if p.categories.length > 0 then " [" ++ jsJoin (", ") p.categories ++ "]" else "")

/-- One line of an invoice listing (lines 784 and 793). -/
def renderInvoiceLine (idx : Nat) (i : InvoiceRow) : String :=
  (toString (idx + 1) ++ ". Invoice " ++ i.invoiceNumber ++ ": ₹" ++ formatINR i.total) ++
    (" from " ++ jsOrOpt i.customerName ("N/A")) ++
    (" (Due: " ++ renderDateOpt i.dueDate ("N/A") ++ ")")

/-- One line of the `PENDING TASKS` listing (line 787). -/
def renderTaskLine (idx : Nat) (t : TaskRow) : String :=
  (toString (idx + 1) ++ ". " ++ t.title ++ " - Priority: " ++ t.priority) ++
    (", Due: " ++ renderDateOpt t.dueDate ("No due date")) ++
    (", Contact: " ++ jsOrOpt t.contactName ("Unassigned"))

/-- One line of the `ACTIVE DEALS` listing (line 790). -/
def renderDealLine (idx : Nat) (d : DealRow) : String :=
  (toString (idx + 1) ++ ". " ++ d.name ++ ": ₹" ++ formatINR d.value) ++
    (" (Stage: " ++ d.stage ++ ", Probability: " ++ toString d.probability ++ "%") ++
    (", Contact: " ++ jsOrOpt d.contactName ("N/A") ++ ")")

/-- The `=== RELEVANT CLIENT/COMPANY INFORMATION ===` section together
with the optional `RELATED DEAL` and `PAST INTERACTIONS` blocks
(lines 745-772). -/
def renderContactSection
    (info : ContactRow × Option DealRow × List InteractionRow) : String :=
  let c := info.1
  let relevantDeal := info.2.1
  let ints := info.2.2
  let base :=
    ("\n\n=== RELEVANT CLIENT/COMPANY INFORMATION ===\nCLIENT: " ++ c.name ++
        (match c.company with
         | some co => if strNonempty co then " (" ++ co ++ ")" else ""
         | none => "")) ++
      ("\n- Type: " ++ c.ctype) ++
      ("\n- Status: " ++ c.status) ++
      ("\n- Email: " ++ jsOrOpt c.email ("N/A")) ++
      ("\n- Phone: " ++ jsOrOpt c.phone ("N/A")) ++
      ("\n- Address: " ++ jsOrOpt c.address ("N/A") ++ ", " ++ jsOrOpt c.city ("N/A") ++
        ", " ++ jsOrOpt c.state ("N/A")) ++
      ("\n" ++
        (match c.notes with
         | some n => if strNonempty n then "- Notes: " ++ n else ""
         | none => "")) ++
      ("\n" ++ (if c.tags.length > 0 then "- Tags: " ++ jsJoin (", ") c.tags else "") ++ "\n")
  let dealPart :=
    match relevantDeal with
    | some d =>
      ("\nRELATED DEAL:\n- Deal Name: " ++ d.name) ++
        ("\n- Value: ₹" ++ formatINR d.value) ++
        ("\n- Stage: " ++ d.stage) ++
        ("\n- Probability: " ++ toString d.probability ++ "%") ++
        ("\n- Expected Close: " ++ renderDateOpt d.expectedCloseDate ("N/A") ++ "\n")
    | none => ""
  let intsPart :=
    if ints.length > 0 then
      ("\nPAST INTERACTIONS (" ++ toString ints.length ++ "):\n") ++
        jsJoin ("\n") (mapWithIndex renderInteractionLine ints) ++ "\n"
    else ""
  base ++ dealPart ++ intsPart

/-- The full context block (lines 722-796). -/
def renderBusinessContext (tenant : Option TenantRow)
    (contactInfo : Option (ContactRow × Option DealRow × List InteractionRow))
    (relevantProducts : List ProductRow)
    (contactsCount dealsCount ordersCount invoicesCount tasksCount : Nat)
    (totalRevenue : Nat)
    (overdueInvoices : List InvoiceRow) (pendingTasks : List TaskRow)
    (recentDeals : List DealRow) (pendingInvoices : List InvoiceRow)
    (pendingInvoiceAmount : Nat) : String :=
  let headerName :=
    match tenant with
    | some t => jsOr t.name ("Business")
    | none => "Business"
  let header :=
    ("=== BUSINESS DATA ===\nIMPORTANT: Use ONLY this data to answer questions. Do NOT give generic responses.\n\nYOUR BUSINESS (" ++
        headerName ++ "):\n") ++
      renderTenantBlock tenant ++
      ("\n\nSUMMARY:\n- Total Contacts: " ++ toString contactsCount) ++
      ("\n- Total Deals: " ++ toString dealsCount) ++
      ("\n- Total Orders: " ++ toString ordersCount) ++
      ("\n- Total Invoices: " ++ toString invoicesCount) ++
      ("\n- Total Tasks: " ++ toString tasksCount) ++
      ("\n- Revenue (Last 30 Days): ₹" ++ formatINR2 totalRevenue ++ "\n")
  let contactPart :=
    match contactInfo with
    | some info => renderContactSection info
    | none => ""
  let productsPart :=
    if relevantProducts.length > 0 then
      ("\n\n=== AVAILABLE PRODUCTS/SERVICES ===\n") ++
        jsJoin ("\n") (mapWithIndex renderProductLine relevantProducts) ++ "\n"
    else ""
  let tail :=
    ("\n\nOVERDUE INVOICES (" ++ toString overdueInvoices.length ++ "):\n" ++
        (if overdueInvoices.length > 0 then
          jsJoin ("\n") (mapWithIndex renderInvoiceLine overdueInvoices)
        else "None - You have no overdue invoices.")) ++
      ("\n\nPENDING TASKS (" ++ toString pendingTasks.length ++ "):\n" ++
        (if pendingTasks.length > 0 then
          jsJoin ("\n") (mapWithIndex renderTaskLine pendingTasks)
        else "None - You have no pending tasks.")) ++
      ("\n\nACTIVE DEALS (" ++ toString recentDeals.length ++ "):\n" ++
        (if recentDeals.length > 0 then
          jsJoin ("\n") (mapWithIndex renderDealLine recentDeals)
        else "None - You have no active deals.")) ++
      ("\n\nPENDING INVOICES (" ++ toString pendingInvoices.length ++ ", Total: ₹" ++
          formatINR2 pendingInvoiceAmount ++ "):\n" ++
        (if pendingInvoices.length > 0 then
          jsJoin ("\n") (mapWithIndex renderInvoiceLine pendingInvoices)
        else "None - You have no pending invoices.")) ++
      "\n\n=== END OF BUSINESS DATA ===\n"
  header ++ contactPart ++ productsPart ++ tail

/-! ### `getBusinessContext` (chat route lines 481-803)

The queries run sequentially inside one `try`; a rejection of any of
them reaches the function-level catch, which returns the EMPTY string
(line 799-802).  The tables are therefore resolved by sequential
matches in query order, and the pure rendering runs only when every
query succeeded. -/

/-- Second half of the query sequence: products, counts, overdue
invoices, pending tasks, top deals, 30-day orders, pending invoices,
and the final rendering. -/
def getBusinessContextRest (db : DB) (tenantId : String) (tenant : Option TenantRow)
    (contactInfo : Option (ContactRow × Option DealRow × List InteractionRow))
    (contactRows : List ContactRow) (dealRows : List DealRow) : Except Unit String :=
  match db.products with
  | Except.error e => Except.error e
  | Except.ok productRows =>
    match db.orders with
    | Except.error e => Except.error e
    | Except.ok orderRows =>
      match db.invoices with
      | Except.error e => Except.error e
      | Except.ok invoiceRows =>
        match db.tasks with
        | Except.error e => Except.error e
        | Except.ok taskRows =>
          let relevantProducts := productsQuery productRows tenantId
          let contactsCount := (contactRows.filter (fun c => c.tenantId == tenantId)).length
          let dealsCount := (dealRows.filter (fun d => d.tenantId == tenantId)).length
          let ordersCount := (orderRows.filter (fun o => o.tenantId == tenantId)).length
          let invoicesCount := (invoiceRows.filter (fun i => i.tenantId == tenantId)).length
          let tasksCount := (taskRows.filter (fun t => t.tenantId == tenantId)).length
          let overdue := overdueInvoicesQuery invoiceRows tenantId
          let pendingTasks := pendingTasksQuery taskRows tenantId
          let recentDeals := recentDealsQuery dealRows tenantId
          let recentOrders := recentOrdersQuery orderRows tenantId db.now
          let totalRevenue := recentOrders.foldl (fun s o => s + o.total) 0
          let pendingInvoices := pendingInvoicesQuery invoiceRows tenantId
          let pendingInvoiceAmount := pendingInvoices.foldl (fun s i => s + i.total) 0
          Except.ok (renderBusinessContext tenant contactInfo relevantProducts
            contactsCount dealsCount ordersCount invoicesCount tasksCount totalRevenue
            overdue pendingTasks recentDeals pendingInvoices pendingInvoiceAmount)

/-- `getBusinessContext` before its catch: `Except.error` is a rejected
persistence query. -/
def getBusinessContextE (db : DB) (tenantId : String) (userMessage : Option String) :
    Except Unit String :=
  match db.tenants with
  | Except.error e => Except.error e
  | Except.ok tenantRows =>
    match db.contacts with
    | Except.error e => Except.error e
    | Except.ok contactRows =>
      match db.deals with
      | Except.error e => Except.error e
      | Except.ok dealRows =>
        let tenant := tenantRows.find? (fun t => t.id == tenantId)
        let matched :=
          match userMessage with
          | some msg =>
            if strNonempty msg then contactMatchQuery contactRows tenantId (searchTerms msg)
            else []
          | none => []
        match matched with
        | c :: _ =>
          match db.interactions with
          | Except.error e => Except.error e
          | Except.ok interactionRows =>
            let cdeals := dealsForContactQuery dealRows tenantId c.id
            let ints := interactionsForContact interactionRows c.id
            getBusinessContextRest db tenantId tenant (some (c, cdeals.head?, ints))
              contactRows dealRows
        | [] => getBusinessContextRest db tenantId tenant none contactRows dealRows

/-- `getBusinessContext` including its own catch (lines 799-802): a
failed query degrades to the EMPTY string, not to a placeholder. -/
def getBusinessContext (db : DB) (tenantId : String) (userMessage : Option String) : String :=
  match getBusinessContextE db tenantId userMessage with
  | Except.ok s => s
  | Except.error _ => ""

/-! ### The provider fallback cascade (chat route lines 96-267) -/

inductive Provider
  | groq
  | ollama
  | huggingface
  | openai
deriving Repr, DecidableEq

/-- Result of a provider `chat` call: `{ message, usage? }`. -/
structure ChatResp where
  message : String
  usage : Option Nat
deriving Repr, DecidableEq

/-- Outcome of the raw OpenAI `fetch` (lines 227-252): HTTP `ok` flag,
`data.choices[0]?.message?.content` and `data.usage`. -/
structure OpenAIFetch where
  ok : Bool
  content : Option String
  usage : Option Nat
deriving Repr, DecidableEq

/-- One request's view of the provider world: which API keys are
configured and what each vendor call would do (`none` models the call
raising an exception). -/
structure ProviderEnv where
  hasGroqKey : Bool
  groq : Option ChatResp
  ollama : Option ChatResp
  hasHuggingFaceKey : Bool
  huggingface : Option ChatResp
  hasOpenAIKey : Bool
  openaiFetch : Option OpenAIFetch
deriving Repr, DecidableEq

/-- Result of the cascade plus the trace of providers whose network call
was actually made, in the order the calls happened. -/
structure FallbackResult where
  message : String
  usage : Option Nat
  service : String
  attempts : List Provider
deriving Repr, DecidableEq

/-- Final `catch` stage (lines 256-264): rule-based, never cached. -/
def ruleBasedStep (message businessContext : String) (attempts : List Provider) :
    FallbackResult :=
  { message := getHelpfulResponse message businessContext
    usage := none
    service := "rule-based"
    attempts := attempts }

/-- OpenAI stage (lines 223-264): only if `OPENAI_API_KEY` is set; a
non-`ok` response throws `'OpenAI failed'`; no key throws
`'No AI service available'`; any throw falls to the rule-based stage. -/
def openaiStep (env : ProviderEnv) (message businessContext : String)
    (attempts : List Provider) : FallbackResult :=
  if env.hasOpenAIKey then
    match env.openaiFetch with
    | some f =>
      if f.ok then
        { message := f.content.getD ""
          usage := f.usage
          service := "openai"
          attempts := attempts ++ [Provider.openai] }
      else ruleBasedStep message businessContext (attempts ++ [Provider.openai])
    | none => ruleBasedStep message businessContext (attempts ++ [Provider.openai])
  else ruleBasedStep message businessContext attempts

/-- Hugging Face stage (lines 190-221): only if `HUGGINGFACE_API_KEY` is
set, otherwise it throws without a network call. -/
def huggingfaceStep (env : ProviderEnv) (message businessContext : String)
    (attempts : List Provider) : FallbackResult :=
  if env.hasHuggingFaceKey then
    match env.huggingface with
    | some r =>
      { message := r.message
        usage := r.usage
        service := "huggingface"
        attempts := attempts ++ [Provider.huggingface] }
    | none => openaiStep env message businessContext (attempts ++ [Provider.huggingface])
  else openaiStep env message businessContext attempts

/-- Ollama stage (lines 152-189): unconditional network call. -/
def ollamaStep (env : ProviderEnv) (message businessContext : String)
    (attempts : List Provider) : FallbackResult :=
  match env.ollama with
  | some r =>
    { message := r.message
      usage := r.usage
      service := "ollama"
      attempts := attempts ++ [Provider.ollama] }
  | none => huggingfaceStep env message businessContext (attempts ++ [Provider.ollama])

/-- The full cascade starting with Groq (lines 121-267): a missing
`GROQ_API_KEY` throws before any network call. -/
def runFallback (env : ProviderEnv) (message businessContext : String) : FallbackResult :=
  if env.hasGroqKey then
    match env.groq with
    | some r =>
      { message := r.message
        usage := r.usage
        service := "groq"
        attempts := [Provider.groq] }
    | none => ollamaStep env message businessContext [Provider.groq]
  else ollamaStep env message businessContext []

/-! ### Spec-side description of the cascade (refinement target for C1) -/

/-- The fixed total order of networked providers stated by the spec. -/
def providerOrder : List Provider :=
  [Provider.groq, Provider.ollama, Provider.huggingface, Provider.openai]

def serviceName : Provider → String
  | Provider.groq => "groq"
  | Provider.ollama => "ollama"
  | Provider.huggingface => "huggingface"
  | Provider.openai => "openai"

/-- What attempting provider `p` does in environment `env`:
`none` = skipped without a network call (missing configuration),
`some none` = network call made and an exception raised,
`some (some r)` = network call made and `r` returned. -/
def attemptOf (env : ProviderEnv) : Provider → Option (Option ChatResp)
  | Provider.groq => if env.hasGroqKey then some env.groq else none
  | Provider.ollama => some env.ollama
  | Provider.huggingface => if env.hasHuggingFaceKey then some env.huggingface else none
  | Provider.openai =>
    if env.hasOpenAIKey then
      some (match env.openaiFetch with
        | some f =>
          if f.ok then some { message := f.content.getD "", usage := f.usage } else none
        | none => none)
    else none

/-- `true` iff attempting `p` in `env` yields a response. -/
def attemptSucceeds (env : ProviderEnv) (p : Provider) : Bool :=
  match attemptOf env p with
  | some (some _) => true
  | _ => false

/-- Stated from the spec's words: walk the fixed provider order, skip
unconfigured providers, advance on any exception, take the first
success, and finish with the rule-based responder. -/
def specFallbackGo (env : ProviderEnv) (message businessContext : String) :
    List Provider → List Provider → FallbackResult
  | [], acc => ruleBasedStep message businessContext acc
  | p :: ps, acc =>
    match attemptOf env p with
    | none => specFallbackGo env message businessContext ps acc
    | some none => specFallbackGo env message businessContext ps (acc ++ [p])
    | some (some r) =>
      { message := r.message
        usage := r.usage
        service := serviceName p
        attempts := acc ++ [p] }

/-- Stated from the spec's words (refinement target for C1). -/
def specFallback (env : ProviderEnv) (message businessContext : String) : FallbackResult :=
  specFallbackGo env message businessContext providerOrder []

/-! ### Theorems for the fallback claims -/

theorem str_eq_empty_of_length (s : String) (h : s.length = 0) : s = "" := by
  cases s with
  | mk data =>
    simp [String.length] at h
    simp [h]

theorem append3_ne_empty (a b c : String) (ha : a ≠ "") : a ++ b ++ c ≠ "" := by
  intro h
  have hl : a.length + b.length + c.length = 0 := by
    have h2 := congrArg String.length h
    rwa [String.length_append, String.length_append] at h2
  exact ha (str_eq_empty_of_length a (by omega))

/-- Every branch of the rule-based responder returns a non-empty string. -/
theorem getHelpfulResponse_ne_empty (query businessContext : String) :
    getHelpfulResponse query businessContext ≠ "" := by
  unfold getHelpfulResponse
  dsimp only
  repeat' split
  all_goals first
    | decide
    | (apply append3_ne_empty; decide)

/-- C1: the chat pipeline attempts providers in the fixed total order
Groq, Ollama, Hugging Face, OpenAI, rule-based; any exception advances
to the next provider; no provider is retried within a request (the
attempt trace is a duplicate-free subsequence of the fixed order), and
the cascade is exactly the spec-side first-success walk. -/
theorem chat_provider_fallback_order (env : ProviderEnv) (message businessContext : String) :
    runFallback env message businessContext = specFallback env message businessContext ∧
      (runFallback env message businessContext).attempts.Sublist providerOrder ∧
      (runFallback env message businessContext).attempts.Nodup := by
  obtain ⟨hg, g, o, hh, hf, ho, of⟩ := env
  refine ⟨?_, ?_, ?_⟩ <;>
    (cases hg <;> cases g <;> cases o <;> cases hh <;> cases hf <;> cases ho <;>
      rcases of with _ | ⟨fok, fc, fu⟩ <;> (try cases fok) <;>
      first
        | rfl
        | (simp [runFallback, ollamaStep, huggingfaceStep, openaiStep, ruleBasedStep] <;>
            decide))

/-- C2: the rule-based responder is total and non-empty, so if every
networked provider attempt fails (raises, or is skipped for missing
configuration), the pipeline still answers with `service = 'rule-based'`
and the rule-based text. -/
theorem rule_based_fallback_total (env : ProviderEnv) (message businessContext : String)
    (hfail : ∀ p ∈ providerOrder, attemptSucceeds env p = false) :
    (runFallback env message businessContext).service = "rule-based" ∧
      (runFallback env message businessContext).message =
        getHelpfulResponse message businessContext ∧
      getHelpfulResponse message businessContext ≠ "" := by
  obtain ⟨hg, g, o, hh, hf, ho, of⟩ := env
  have h1 := hfail Provider.groq (by decide)
  have h2 := hfail Provider.ollama (by decide)
  have h3 := hfail Provider.huggingface (by decide)
  have h4 := hfail Provider.openai (by decide)
  cases hg <;> cases g <;> cases o <;> cases hh <;> cases hf <;> cases ho <;>
    rcases of with _ | ⟨fok, fc, fu⟩ <;> (try cases fok) <;>
    (try simp [attemptSucceeds, attemptOf] at h1 h2 h3 h4) <;>
    exact ⟨rfl, rfl, getHelpfulResponse_ne_empty message businessContext⟩

/-- Witness for `rule_based_fallback_total`: with every provider failing,
a concrete request is answered by the rule-based stage. -/
theorem rule_based_fallback_total_witness :
    (∀ p ∈ providerOrder,
        attemptSucceeds (ProviderEnv.mk true none none true none true none) p = false) ∧
      ((runFallback (ProviderEnv.mk true none none true none true none)
          ("what needs attention") ("")).service = "rule-based" ∧
        (runFallback (ProviderEnv.mk true none none true none true none)
            ("what needs attention") ("")).message =
          getHelpfulResponse ("what needs attention") ("") ∧
        getHelpfulResponse ("what needs attention") ("") ≠ "") :=
  ⟨by decide,
    rule_based_fallback_total (ProviderEnv.mk true none none true none true none)
      ("what needs attention") ("") (by decide)⟩

/-! ### Spec-modelled collaborators of the chat route

The auth middleware (`@/lib/middleware/auth`), the context analyzer
(`@/lib/ai/context-analyzer`) and the semantic cache store
(`@/lib/ai/semantic-cache`) are imported by the routes but their source
files are not part of the repository snapshot; they are modelled from
the specification. -/

inductive LicenseError
  | unauthenticated
  | unlicensed
deriving Repr, DecidableEq

/-- The request's resolved identity as the middleware would see it. -/
structure AuthCheck where
  result : Except LicenseError (String × String)

/-- Modelled from the spec: `requireModuleAccess` from
`@/lib/middleware/auth` (file missing from the snapshot) resolves the
request to a tenant and user identity and checks the per-module license,
failing for unauthenticated or unlicensed requests. -/
def requireModuleAccess (a : AuthCheck) (moduleId : String) :
    Except LicenseError (String × String) :=
  let _ := moduleId
  a.result

/-- Modelled from the spec: `handleLicenseError` (same missing file)
turns a license failure into the 401/403-equivalent structured
response; only the status code is relevant here. -/
def handleLicenseError : LicenseError → Nat
  | LicenseError.unauthenticated => 401
  | LicenseError.unlicensed => 403

inductive Confidence
  | low
  | medium
  | high
deriving Repr, DecidableEq

/-- The signal record the chat route hands to the analyzer (lines 61-69). -/
structure ContextSignals where
  hasBusinessData : Bool
  hasRelevantContact : Bool
  hasRelevantDeal : Bool
  hasProducts : Bool
  hasTasks : Bool
  hasInvoices : Bool
  hasDeals : Bool
deriving Repr, DecidableEq

structure ContextAnalysis where
  hasEnoughContext : Bool
  confidence : Confidence
  missingContext : List String
  suggestedQuestions : List String
deriving Repr, DecidableEq

def signalCount (s : ContextSignals) : Nat :=
  [s.hasBusinessData, s.hasRelevantContact, s.hasRelevantDeal, s.hasProducts,
    s.hasTasks, s.hasInvoices, s.hasDeals].count true

def missingSignalNames (s : ContextSignals) : List String :=
  (if s.hasBusinessData then [] else [("business data")]) ++
    (if s.hasRelevantContact then [] else [("a matched client or company")]) ++
    (if s.hasRelevantDeal then [] else [("a matched deal")]) ++
    (if s.hasProducts then [] else [("product data")]) ++
    (if s.hasTasks then [] else [("pending tasks")]) ++
    (if s.hasInvoices then [] else [("overdue invoices")]) ++
    (if s.hasDeals then [] else [("active deals")])

/-- The fixed candidate list the clarifying question is chosen from. -/
def clarifyingQuestionCandidates : List String :=
  [("Which client, company or deal is this about?"),
   ("Which business area does this concern: sales, marketing, finance or operations?"),
   ("What outcome do you want: a summary, a document, or specific numbers?")]

/-- Modelled from the spec: `analyzePromptContext` from
`@/lib/ai/context-analyzer` (file missing from the snapshot).  Spec
§4.1 step 3: confidence is a three-level enum computed by counting the
present signals against a fixed threshold table, and the context is
sufficient exactly when confidence is not `low`. -/
def analyzePromptContext (message : String) (s : ContextSignals) : ContextAnalysis :=
  let _ := message
  let n := signalCount s
  { hasEnoughContext := decide (2 ≤ n)
    confidence := if 4 ≤ n then Confidence.high else if 2 ≤ n then Confidence.medium
      else Confidence.low
    missingContext := missingSignalNames s
    suggestedQuestions := clarifyingQuestionCandidates }

/-- Modelled from the spec: `formatClarifyingQuestions` (same missing
file) returns one clarifying question chosen from the fixed candidate
list. -/
def formatClarifyingQuestions (a : ContextAnalysis) : String :=
  match a.suggestedQuestions with
  | q :: _ => q
  | [] => "Could you share a bit more detail about what you need?"

/-- Modelled from the spec: the semantic cache store
(`@/lib/ai/semantic-cache`, missing from the snapshot) is a key-value
mapping from the exact user message string to the cached response. -/
abbrev Cache := List (String × String)

/-- `semanticCache.set(message, response)`: overwrite the entry for the
exact key. -/
def cacheSet (c : Cache) (k v : String) : Cache :=
  (k, v) :: c.filter (fun p => p.1 != k)

/-- `semanticCache.get(message)`: exact-key lookup. -/
def cacheGet (c : Cache) (k : String) : Option String :=
  (c.find? (fun p => p.1 == k)).map (fun p => p.2)

/-! ### The chat route handler (`POST /api/ai/chat`, lines 21-343) -/

/-- The topic-filter keyword list (lines 30-34). -/
def personalKeywords : List String :=
  [("girlfriend"), ("boyfriend"), ("wife"), ("husband"), ("dating"), ("love"),
   ("relationship"), ("family"), ("personal"), ("life"), ("marriage"), ("divorce"),
   ("breakup"), ("romance"), ("sex"), ("intimate"), ("private"),
   ("personal problem"), ("personal issue")]

/-- The canned business-only redirect (lines 40-44). -/
def personalRedirectMessage : String :=
  "I'm a business assistant and can only help with business-related questions. How can I assist you with your business today? I can help with:\n\n• Business proposals and quotes\n• Social media posts (LinkedIn, Facebook, etc.)\n• Pitch decks and business plans\n• Marketing content\n• Sales strategies\n• Financial analysis\n• And other business operations"

/-- The route-level catch placeholder for a failed context assembly
(line 57).  It is unreachable, because `getBusinessContext` catches
internally and returns the empty string. -/
def contextUnavailablePlaceholder : String := "Business context unavailable. Please try again."

/-- The signal record built by the route from the rendered context
(lines 61-69). -/
def contextSignalsOf (businessContext : String) : ContextSignals :=
  { hasBusinessData := decide (businessContext.length > 100)
    hasRelevantContact := strIncludes businessContext ("RELEVANT CLIENT/COMPANY INFORMATION")
    hasRelevantDeal := strIncludes businessContext ("RELATED DEAL")
    hasProducts := strIncludes businessContext ("AVAILABLE PRODUCTS/SERVICES")
    hasTasks := strIncludes businessContext ("PENDING TASKS") &&
      !strIncludes businessContext ("None - You have no pending tasks")
    hasInvoices := strIncludes businessContext ("OVERDUE INVOICES") &&
      !strIncludes businessContext ("None - You have no overdue invoices")
    hasDeals := strIncludes businessContext ("ACTIVE DEALS") &&
      !strIncludes businessContext ("None - You have no active deals") }

/-- `{ message, context? }` after schema validation. -/
structure ChatRequest where
  message : String
  moduleHint : Option String
deriving Repr, DecidableEq

/-- Observable outcome of one chat request: the JSON fields of the
response plus an effect trace (providers called, whether context
assembly ran, the context string that was used, the cache afterwards,
and whether the interaction log was enqueued). -/
structure ChatResult where
  status : Nat
  message : String
  service : String
  cached : Bool
  needsClarification : Bool
  usage : Option Nat
  attempts : List Provider
  reachedFallback : Bool
  contextAssembled : Bool
  contextUsed : String
  cacheAfter : Cache
  logEnqueued : Bool
deriving Repr, DecidableEq

/-- `POST /api/ai/chat` (lines 21-343): license check, schema
validation, topic filter, context assembly, sufficiency check, provider
fallback, conditional cache write, log enqueue.  The commented-out
exact-match cache read (lines 86-94) is absent, so `cache` is never
consulted. -/
def POST_chat (auth : AuthCheck) (db : DB) (env : ProviderEnv) (cache : Cache)
    (req : ChatRequest) : ChatResult :=
  match requireModuleAccess auth ("ai-studio") with
  | Except.error e =>
    { status := handleLicenseError e, message := "", service := "", cached := false
      needsClarification := false, usage := none, attempts := [], reachedFallback := false
      contextAssembled := false, contextUsed := "", cacheAfter := cache, logEnqueued := false }
  | Except.ok (tenantId, _userId) =>
    if req.message.length < 1 then
      -- `chatSchema.parse` rejects the empty message (Zod `min(1)`), 400
      { status := 400, message := "", service := "", cached := false
        needsClarification := false, usage := none, attempts := [], reachedFallback := false
        contextAssembled := false, contextUsed := "", cacheAfter := cache, logEnqueued := false }
    else
      let lowerMessage := jsToLower req.message
      let isPersonalQuery := personalKeywords.any (fun keyword => strIncludes lowerMessage keyword)
      if isPersonalQuery then
        { status := 200, message := personalRedirectMessage, service := "filtered"
          cached := false, needsClarification := false, usage := none, attempts := []
          reachedFallback := false, contextAssembled := false, contextUsed := ""
          cacheAfter := cache, logEnqueued := false }
      else
        -- the try/catch around the call would substitute
        -- `contextUnavailablePlaceholder`, but `getBusinessContext`
        -- cannot throw: its own catch returns "" first
        let businessContext := getBusinessContext db tenantId (some req.message)
        let contextAnalysis := analyzePromptContext req.message (contextSignalsOf businessContext)
        if !contextAnalysis.hasEnoughContext && contextAnalysis.confidence == Confidence.low then
          { status := 200, message := formatClarifyingQuestions contextAnalysis
            service := "context-analyzer", cached := false, needsClarification := true
            usage := none, attempts := [], reachedFallback := false, contextAssembled := true
            contextUsed := businessContext, cacheAfter := cache, logEnqueued := false }
        else
          let fb := runFallback env req.message businessContext
          let cacheAfter :=
            if fb.service != "rule-based" && strNonempty fb.message then
              cacheSet cache req.message fb.message
            else cache
          { status := 200, message := fb.message, service := fb.service, cached := false
            needsClarification := false, usage := fb.usage, attempts := fb.attempts
            reachedFallback := true, contextAssembled := true, contextUsed := businessContext
            cacheAfter := cacheAfter, logEnqueued := true }

/-! ### The usage and generate-image routes (claim C5)

`src/src/app/api/ai/usage/route.ts` and
`src/src/app/api/ai/generate-image/route.ts` both import
`requireModuleAccess` and `handleLicenseError` but CALL
`requireAIStudioAccess(request)`, an identifier that is defined
nowhere in the repository and imported nowhere.  Evaluating it throws
a `ReferenceError` before anything else runs; each handler's generic
catch turns that into a plain 500 response (neither catch consults
`handleLicenseError`). -/

/-- The auth functions actually in scope in those route modules: each
file's module header names only `requireModuleAccess` (usage route
line 2, generate-image route line 2). -/
def routeAuthScope : List (String × (AuthCheck → String → Except LicenseError (String × String))) :=
  [(("requireModuleAccess"), fun a m => requireModuleAccess a m)]

structure RouteOutcome where
  status : Nat
  errorBody : Option String
  businessLogicRan : Bool
deriving Repr, DecidableEq

/-- `GET /api/ai/usage` (usage route lines 7-78): the body's first
statement evaluates `requireAIStudioAccess`; the catch (lines 71-77)
returns a generic 500 for every thrown error, license errors included. -/
def GET_usage (a : AuthCheck) : RouteOutcome :=
  match routeAuthScope.find? (fun p => p.1 == "requireAIStudioAccess") with
  | none =>
    { status := 500, errorBody := some ("Failed to retrieve usage"), businessLogicRan := false }
  | some f =>
    match f.2 a ("ai-studio") with
    | Except.error _ =>
      { status := 500, errorBody := some ("Failed to retrieve usage"), businessLogicRan := false }
    | Except.ok _ =>
      { status := 200, errorBody := none, businessLogicRan := true }

/-- `POST /api/ai/generate-image` (generate-image route lines 18-362):
same unbound `requireAIStudioAccess` call; the non-Zod branch of its
catch (lines 334-361) returns a generic 500. -/
def POST_generateImage (a : AuthCheck) : RouteOutcome :=
  match routeAuthScope.find? (fun p => p.1 == "requireAIStudioAccess") with
  | none =>
    { status := 500, errorBody := some ("Failed to generate image"), businessLogicRan := false }
  | some f =>
    match f.2 a ("ai-studio") with
    | Except.error _ =>
      { status := 500, errorBody := some ("Failed to generate image"), businessLogicRan := false }
    | Except.ok _ =>
      { status := 200, errorBody := none, businessLogicRan := true }

/-! ### Concrete fixtures used by witnesses and counterexamples -/

def sampleTenant : TenantRow :=
  { id := "t1", name := "TestCo", gstin := none, address := none, city := none
    state := none, postalCode := none, country := none, phone := none, email := none
    website := none }

def sampleDeal : DealRow :=
  { tenantId := "t1", contactId := "c9", name := "Big Deal", value := 50000
    stage := "proposal", probability := 60, expectedCloseDate := none
    createdAt := JsDate.mk 100 ("1/2/2024"), contactName := none }

/-- A healthy store for tenant `t1` with one active deal and nothing else. -/
def sampleDB : DB :=
  { tenants := Except.ok [sampleTenant], contacts := Except.ok [], deals := Except.ok [sampleDeal]
    interactions := Except.ok [], products := Except.ok [], orders := Except.ok []
    invoices := Except.ok [], tasks := Except.ok [], now := 1000 }

/-- A store whose very first query (the tenant profile) fails. -/
def failingDB : DB :=
  { tenants := Except.error (), contacts := Except.ok [], deals := Except.ok []
    interactions := Except.ok [], products := Except.ok [], orders := Except.ok []
    invoices := Except.ok [], tasks := Except.ok [], now := 0 }

/-- An empty but healthy store. -/
def emptyDB : DB :=
  { tenants := Except.ok [], contacts := Except.ok [], deals := Except.ok []
    interactions := Except.ok [], products := Except.ok [], orders := Except.ok []
    invoices := Except.ok [], tasks := Except.ok [], now := 0 }

/-- Environment where the first provider succeeds. -/
def groqOkEnv : ProviderEnv :=
  { hasGroqKey := true, groq := some (ChatResp.mk ("AI answer") (some 42)), ollama := none
    hasHuggingFaceKey := false, huggingface := none, hasOpenAIKey := false
    openaiFetch := none }

def authedAs (t u : String) : AuthCheck := AuthCheck.mk (Except.ok (t, u))

/-- Tenant `t1`'s contact and another tenant's interaction row pointing
at it: the fixture behind the C8 finding. -/
def leakContact : ContactRow :=
  { tenantId := "t1", id := "c1", name := "Acme", company := none, email := none
    phone := none, address := none, city := none, state := none, ctype := "customer"
    status := "active", notes := none, tags := [] }

def leakInteraction : InteractionRow :=
  { tenantId := "t2", contactId := "c1", itype := "call"
    subject := some ("Secret t2 interaction"), notes := none
    createdAt := JsDate.mk 5 ("1/5/2024") }

def leakDB : DB :=
  { tenants := Except.ok [sampleTenant], contacts := Except.ok [leakContact]
    deals := Except.ok [], interactions := Except.ok [leakInteraction]
    products := Except.ok [], orders := Except.ok [], invoices := Except.ok []
    tasks := Except.ok [], now := 0 }

/-! ### Theorems for the pipeline claims -/

set_option maxRecDepth 16384 in
/-- C8: the business-context assembly does NOT filter every query by the
requesting tenant — the interactions lookup filters only by contact id
(route lines 582-594), against the code's own comment (lines 483-485).
Concretely: tenant `t1` matches its own contact `c1`, and an interaction
row belonging to tenant `t2` (but pointing at `c1`) is returned by the
interactions query and rendered into `t1`'s context block. -/
theorem interactions_query_ignores_tenant :
    interactionsForContact [leakInteraction] ("c1") = [leakInteraction] ∧
      leakInteraction.tenantId = "t2" ∧
      strIncludes (getBusinessContext leakDB ("t1") (some ("Acme")))
        ("Secret t2 interaction") = true ∧
      strIncludes (getBusinessContext leakDB ("t1") (some ("Acme")))
        ("PAST INTERACTIONS") = true := by
  refine ⟨by decide, by decide, by decide, by decide⟩

/-- C5 (code bug): the chat route performs the license check before any
business logic and maps failures to a 401/403-equivalent response; but
the usage and generate-image routes call the unbound identifier
`requireAIStudioAccess`, so EVERY request — authenticated or not —
fails with a ReferenceError that their catches turn into a generic 500,
never a 401/403, with no business logic run. -/
theorem auth_check_before_business_logic :
    (∀ (e : LicenseError) (db : DB) (env : ProviderEnv) (cache : Cache) (req : ChatRequest),
        (POST_chat (AuthCheck.mk (Except.error e)) db env cache req).status =
            handleLicenseError e ∧
          (handleLicenseError e = 401 ∨ handleLicenseError e = 403) ∧
          (POST_chat (AuthCheck.mk (Except.error e)) db env cache req).attempts = [] ∧
          (POST_chat (AuthCheck.mk (Except.error e)) db env cache req).contextAssembled =
            false ∧
          (POST_chat (AuthCheck.mk (Except.error e)) db env cache req).logEnqueued = false) ∧
      (∀ a : AuthCheck,
        GET_usage a = RouteOutcome.mk 500 (some ("Failed to retrieve usage")) false) ∧
      (∀ a : AuthCheck,
        POST_generateImage a =
          RouteOutcome.mk 500 (some ("Failed to generate image")) false) := by
  refine ⟨?_, fun a => rfl, fun a => rfl⟩
  intro e db env cache req
  refine ⟨rfl, ?_, rfl, rfl, rfl⟩
  cases e
  · exact Or.inl rfl
  · exact Or.inr rfl

/-- A message that matches a personal keyword cannot be empty. -/
theorem message_nonempty_of_personal (m : String)
    (h : personalKeywords.any (fun keyword => strIncludes (jsToLower m) keyword) = true) :
    ¬ (m.length < 1) := by
  intro hlt
  have h0 : m.length = 0 := by omega
  rw [str_eq_empty_of_length m h0] at h
  exact absurd h (by decide)

/-- C6: a message whose lowercasing contains any personal-topic keyword
is answered with the canned business-only redirect, service 'filtered',
and the request performs no context assembly, calls no provider, writes
no cache entry and enqueues no interaction log. -/
theorem personal_filter_short_circuit (t u : String) (db : DB) (env : ProviderEnv)
    (cache : Cache) (req : ChatRequest)
    (h : personalKeywords.any (fun keyword =>
        strIncludes (jsToLower req.message) keyword) = true) :
    POST_chat (authedAs t u) db env cache req =
      { status := 200, message := personalRedirectMessage, service := "filtered"
        cached := false, needsClarification := false, usage := none, attempts := []
        reachedFallback := false, contextAssembled := false, contextUsed := ""
        cacheAfter := cache, logEnqueued := false } := by
  have hlen := message_nonempty_of_personal req.message h
  simp [POST_chat, authedAs, requireModuleAccess, hlen, h]

/-- Witness for `personal_filter_short_circuit` on a concrete personal
message. -/
theorem personal_filter_short_circuit_witness :
    (personalKeywords.any (fun keyword =>
        strIncludes (jsToLower ("tell me about my love life")) keyword) = true) ∧
      POST_chat (authedAs ("t1") ("u1")) sampleDB groqOkEnv []
          (ChatRequest.mk ("tell me about my love life") none) =
        { status := 200, message := personalRedirectMessage, service := "filtered"
          cached := false, needsClarification := false, usage := none, attempts := []
          reachedFallback := false, contextAssembled := false, contextUsed := ""
          cacheAfter := [], logEnqueued := false } :=
  ⟨by decide,
    personal_filter_short_circuit ("t1") ("u1") sampleDB groqOkEnv []
      (ChatRequest.mk ("tell me about my love life") none) (by decide)⟩

set_option maxRecDepth 16384 in
/-- C3 counterexample: the exact-match cache read (route lines 86-94) is
commented out, so a second request with the identical message string is
NOT answered from the cache: the first request writes the entry, yet the
second request still makes the same Groq network call and reports
`cached := false`. -/
theorem cache_not_consulted_counterexample :
    (POST_chat (authedAs ("t1") ("u1")) sampleDB groqOkEnv []
        (ChatRequest.mk ("What is my revenue?") none)).cacheAfter =
      [(("What is my revenue?"), ("AI answer"))] ∧
      (POST_chat (authedAs ("t1") ("u1")) sampleDB groqOkEnv
          [(("What is my revenue?"), ("AI answer"))]
          (ChatRequest.mk ("What is my revenue?") none)).attempts = [Provider.groq] ∧
      (POST_chat (authedAs ("t1") ("u1")) sampleDB groqOkEnv
          [(("What is my revenue?"), ("AI answer"))]
          (ChatRequest.mk ("What is my revenue?") none)).cached = false :=
  ⟨by decide, by decide, by decide⟩

/-- C3 amended: a cache write happens exactly when the request reached
the provider stage with a non-rule-based winner and a non-empty response
text; and the pipeline never reads the cache — attempts, service and
response are independent of the cache contents. -/
theorem cache_write_iff_not_rule_based (t u : String) (db : DB) (env : ProviderEnv)
    (cache cache' : Cache) (req : ChatRequest) :
    (POST_chat (authedAs t u) db env cache req).cacheAfter =
        (if (POST_chat (authedAs t u) db env cache req).reachedFallback &&
            ((POST_chat (authedAs t u) db env cache req).service != "rule-based") &&
            strNonempty (POST_chat (authedAs t u) db env cache req).message then
          cacheSet cache req.message (POST_chat (authedAs t u) db env cache req).message
        else cache) ∧
      (POST_chat (authedAs t u) db env cache' req).attempts =
        (POST_chat (authedAs t u) db env cache req).attempts ∧
      (POST_chat (authedAs t u) db env cache' req).service =
        (POST_chat (authedAs t u) db env cache req).service ∧
      (POST_chat (authedAs t u) db env cache' req).message =
        (POST_chat (authedAs t u) db env cache req).message := by
  unfold POST_chat authedAs requireModuleAccess
  dsimp only
  repeat' split <;> simp_all

def exceptOk : Except Unit α → Bool
  | Except.ok _ => true
  | Except.error _ => false

/-- All seven unconditionally queried tables are healthy. -/
def dbAllOk (db : DB) : Bool :=
  exceptOk db.tenants && exceptOk db.contacts && exceptOk db.deals &&
    exceptOk db.products && exceptOk db.orders && exceptOk db.invoices &&
    exceptOk db.tasks

theorem getBusinessContextRest_error (db : DB) (tenantId : String)
    (tenant : Option TenantRow)
    (ci : Option (ContactRow × Option DealRow × List InteractionRow))
    (cr : List ContactRow) (dr : List DealRow)
    (h : exceptOk db.products = false ∨ exceptOk db.orders = false ∨
      exceptOk db.invoices = false ∨ exceptOk db.tasks = false) :
    getBusinessContextRest db tenantId tenant ci cr dr = Except.error () := by
  unfold getBusinessContextRest
  cases hp : db.products with
  | error e => rfl
  | ok prows =>
    cases ho : db.orders with
    | error e => rfl
    | ok orows =>
      cases hi : db.invoices with
      | error e => rfl
      | ok irows =>
        cases ht : db.tasks with
        | error e => rfl
        | ok trows =>
          exfalso
          rcases h with h | h | h | h <;> simp [hp, ho, hi, ht, exceptOk] at h

/-- A failure of any of the seven unconditional queries propagates to
the function-level catch of `getBusinessContext`. -/
theorem getBusinessContextE_error_of_failure (db : DB) (tenantId : String)
    (m : Option String) (h : dbAllOk db = false) :
    getBusinessContextE db tenantId m = Except.error () := by
  unfold getBusinessContextE
  cases htn : db.tenants with
  | error e => rfl
  | ok trows =>
    cases hc : db.contacts with
    | error e => rfl
    | ok crows =>
      cases hd : db.deals with
      | error e => rfl
      | ok drows =>
        have h4 : exceptOk db.products = false ∨ exceptOk db.orders = false ∨
            exceptOk db.invoices = false ∨ exceptOk db.tasks = false := by
          cases hbp : exceptOk db.products with
          | false => exact Or.inl rfl
          | true =>
            cases hbo : exceptOk db.orders with
            | false => exact Or.inr (Or.inl rfl)
            | true =>
              cases hbi : exceptOk db.invoices with
              | false => exact Or.inr (Or.inr (Or.inl rfl))
              | true =>
                cases hbt : exceptOk db.tasks with
                | false => exact Or.inr (Or.inr (Or.inr rfl))
                | true =>
                  exfalso
                  unfold dbAllOk at h
                  rw [htn, hc, hd, hbp, hbo, hbi, hbt] at h
                  simp [exceptOk] at h
        dsimp only
        cases (match m with
          | some msg =>
            if strNonempty msg then contactMatchQuery crows tenantId (searchTerms msg)
            else []
          | none => ([] : List ContactRow)) with
        | nil => exact getBusinessContextRest_error db tenantId _ _ _ _ h4
        | cons c cs =>
          cases hint : db.interactions with
          | error e => rfl
          | ok irows => exact getBusinessContextRest_error db tenantId _ _ _ _ h4

/-- The context used by the pipeline after a failed query is `""`. -/
theorem getBusinessContext_empty_of_failure (db : DB) (tenantId : String)
    (m : Option String) (h : dbAllOk db = false) :
    getBusinessContext db tenantId m = "" := by
  unfold getBusinessContext
  rw [getBusinessContextE_error_of_failure db tenantId m h]

/-- The clarify branch of the chat route, reached when the message is
non-empty, non-personal, and the sufficiency gate fires. -/
theorem POST_chat_clarify_eq (t u : String) (db : DB) (env : ProviderEnv) (cache : Cache)
    (req : ChatRequest)
    (hmsg : ¬ (req.message.length < 1))
    (hpers : (personalKeywords.any fun keyword =>
        strIncludes (jsToLower req.message) keyword) = false)
    (hcond : (!(analyzePromptContext req.message (contextSignalsOf
          (getBusinessContext db t (some req.message)))).hasEnoughContext &&
        ((analyzePromptContext req.message (contextSignalsOf
          (getBusinessContext db t (some req.message)))).confidence ==
          Confidence.low)) = true) :
    POST_chat (authedAs t u) db env cache req =
      { status := 200
        message := formatClarifyingQuestions (analyzePromptContext req.message
          (contextSignalsOf (getBusinessContext db t (some req.message))))
        service := "context-analyzer", cached := false, needsClarification := true
        usage := none, attempts := [], reachedFallback := false, contextAssembled := true
        contextUsed := getBusinessContext db t (some req.message)
        cacheAfter := cache, logEnqueued := false } := by
  unfold POST_chat authedAs requireModuleAccess
  dsimp only
  rw [if_neg hmsg, if_neg (by simp [hpers]), if_pos hcond]

/-- C4 amended: when a business-context persistence query fails,
assembly degrades to the EMPTY string — the route-level
'Business context unavailable. Please try again.' placeholder is
unreachable because `getBusinessContext` catches internally — and the
request is not aborted: it proceeds to the sufficiency check and
returns a normal 200 response (a clarifying question, since the empty
context has no signals). -/
theorem context_failure_degrades_to_empty (t u : String) (db : DB) (env : ProviderEnv)
    (cache : Cache) (req : ChatRequest)
    (hdb : dbAllOk db = false)
    (hmsg : ¬ (req.message.length < 1))
    (hpers : personalKeywords.any (fun keyword =>
        strIncludes (jsToLower req.message) keyword) = false) :
    getBusinessContext db t (some req.message) = "" ∧
      getBusinessContext db t (some req.message) ≠ contextUnavailablePlaceholder ∧
      (POST_chat (authedAs t u) db env cache req).contextUsed = "" ∧
      (POST_chat (authedAs t u) db env cache req).status = 200 ∧
      (POST_chat (authedAs t u) db env cache req).needsClarification = true := by
  have hctx := getBusinessContext_empty_of_failure db t (some req.message) hdb
  have hcond : (!(analyzePromptContext req.message (contextSignalsOf
        (getBusinessContext db t (some req.message)))).hasEnoughContext &&
      ((analyzePromptContext req.message (contextSignalsOf
        (getBusinessContext db t (some req.message)))).confidence ==
        Confidence.low)) = true := by
    rw [hctx]; rfl
  have heq := POST_chat_clarify_eq t u db env cache req hmsg hpers hcond
  refine ⟨hctx, ?_, ?_, ?_, ?_⟩
  · rw [hctx]; decide
  · rw [heq]; exact hctx
  · rw [heq]
  · rw [heq]

/-- Witness for `context_failure_degrades_to_empty` at a concrete
failing store and message. -/
theorem context_failure_degrades_to_empty_witness :
    (dbAllOk failingDB = false ∧
        ¬ (("what needs attention" : String).length < 1) ∧
        personalKeywords.any (fun keyword =>
          strIncludes (jsToLower ("what needs attention")) keyword) = false) ∧
      (getBusinessContext failingDB ("t1") (some ("what needs attention")) = "" ∧
        (POST_chat (authedAs ("t1") ("u1")) failingDB groqOkEnv []
          (ChatRequest.mk ("what needs attention") none)).status = 200) :=
  ⟨⟨by decide, by decide, by decide⟩,
    let h := context_failure_degrades_to_empty ("t1") ("u1") failingDB groqOkEnv []
      (ChatRequest.mk ("what needs attention") none) (by decide) (by decide) (by decide)
    ⟨h.1, h.2.2.2.1⟩⟩

/-- C4 counterexample: with the tenant-profile query failing, the
pipeline's context value is the empty string and NOT the explicit
placeholder; the request still completes normally with status 200. -/
theorem context_placeholder_not_used_counterexample :
    getBusinessContext failingDB ("t1") (some ("what needs attention")) = "" ∧
      contextUnavailablePlaceholder ≠ "" ∧
      (POST_chat (authedAs ("t1") ("u1")) failingDB groqOkEnv []
        (ChatRequest.mk ("what needs attention") none)).contextUsed = "" ∧
      (POST_chat (authedAs ("t1") ("u1")) failingDB groqOkEnv []
        (ChatRequest.mk ("what needs attention") none)).status = 200 :=
  ⟨by decide, by decide, by decide, by decide⟩

/-- With the spec-modelled threshold table, low confidence means the
context was insufficient. -/
theorem analyze_low_not_enough (m : String) (s : ContextSignals)
    (h : (analyzePromptContext m s).confidence = Confidence.low) :
    (analyzePromptContext m s).hasEnoughContext = false := by
  unfold analyzePromptContext at h ⊢
  dsimp only at h ⊢
  by_cases h4 : 4 ≤ signalCount s
  · simp [h4] at h
  · by_cases h2 : 2 ≤ signalCount s
    · simp [h4, h2] at h
    · simp [h2]

/-- C7: when the sufficiency analysis of the assembled context comes
back with confidence 'low', the pipeline answers with a clarifying
question, `needsClarification := true`, service 'context-analyzer', and
no provider is invoked (no attempt, no cache write, no log). -/
theorem low_confidence_returns_clarification (t u : String) (db : DB) (env : ProviderEnv)
    (cache : Cache) (req : ChatRequest)
    (hmsg : ¬ (req.message.length < 1))
    (hpers : personalKeywords.any (fun keyword =>
        strIncludes (jsToLower req.message) keyword) = false)
    (hlow : (analyzePromptContext req.message
        (contextSignalsOf (getBusinessContext db t (some req.message)))).confidence =
      Confidence.low) :
    (POST_chat (authedAs t u) db env cache req).service = "context-analyzer" ∧
      (POST_chat (authedAs t u) db env cache req).needsClarification = true ∧
      (POST_chat (authedAs t u) db env cache req).message =
        formatClarifyingQuestions (analyzePromptContext req.message
          (contextSignalsOf (getBusinessContext db t (some req.message)))) ∧
      (POST_chat (authedAs t u) db env cache req).attempts = [] ∧
      (POST_chat (authedAs t u) db env cache req).reachedFallback = false ∧
      (POST_chat (authedAs t u) db env cache req).cacheAfter = cache ∧
      (POST_chat (authedAs t u) db env cache req).logEnqueued = false := by
  have hen := analyze_low_not_enough req.message
    (contextSignalsOf (getBusinessContext db t (some req.message))) hlow
  have hcond : (!(analyzePromptContext req.message (contextSignalsOf
        (getBusinessContext db t (some req.message)))).hasEnoughContext &&
      ((analyzePromptContext req.message (contextSignalsOf
        (getBusinessContext db t (some req.message)))).confidence ==
        Confidence.low)) = true := by
    rw [hen, hlow]; decide
  have heq := POST_chat_clarify_eq t u db env cache req hmsg hpers hcond
  rw [heq]
  exact ⟨rfl, rfl, rfl, rfl, rfl, rfl, rfl⟩

set_option maxRecDepth 16384 in
/-- Witness for `low_confidence_returns_clarification`: an empty store
gives a context with no signals, hence low confidence. -/
theorem low_confidence_returns_clarification_witness :
    (¬ (("hello there" : String).length < 1) ∧
        personalKeywords.any (fun keyword =>
          strIncludes (jsToLower ("hello there")) keyword) = false ∧
        (analyzePromptContext ("hello there")
          (contextSignalsOf (getBusinessContext emptyDB ("t1")
            (some ("hello there"))))).confidence = Confidence.low) ∧
      ((POST_chat (authedAs ("t1") ("u1")) emptyDB groqOkEnv []
          (ChatRequest.mk ("hello there") none)).service = "context-analyzer" ∧
        (POST_chat (authedAs ("t1") ("u1")) emptyDB groqOkEnv []
          (ChatRequest.mk ("hello there") none)).needsClarification = true ∧
        (POST_chat (authedAs ("t1") ("u1")) emptyDB groqOkEnv []
          (ChatRequest.mk ("hello there") none)).attempts = []) :=
  ⟨⟨by decide, by decide, by decide⟩,
    let h := low_confidence_returns_clarification ("t1") ("u1") emptyDB groqOkEnv []
      (ChatRequest.mk ("hello there") none) (by decide) (by decide) (by decide)
    ⟨h.1, h.2.1, h.2.2.2.1⟩⟩

/-! ### Telephony webhook (`src/unnamed/part_001`) -/

/-- The vendor-status table of `mapTwilioStatus` (object literal, lines 93-101). -/
def statusMap : List (String × String) :=
  [("ringing", "RINGING"),
   ("in-progress", "ANSWERED"),
   ("completed", "COMPLETED"),
   ("busy", "BUSY"),
   ("no-answer", "NO_ANSWER"),
   ("failed", "FAILED"),
   ("canceled", "FAILED")]

/-- Result of a JS bracket property access on the `statusMap` object
literal: an own string-valued property, a truthy function/object value
inherited from `Object.prototype`, or `undefined`. -/
inductive JsProp
  | str (s : String)
  | inherited (name : String)
  | undef
deriving Repr, DecidableEq

/-- The own property names of `Object.prototype`, which a plain object
literal inherits; bracket access on a missing own key consults them
before yielding `undefined`, and each of them holds a truthy
function/object value. -/
def objectPrototypeProps : List String :=
  [("constructor"), ("hasOwnProperty"), ("isPrototypeOf"), ("propertyIsEnumerable"),
   ("toLocaleString"), ("toString"), ("valueOf"), ("__defineGetter__"),
   ("__defineSetter__"), ("__lookupGetter__"), ("__lookupSetter__"), ("__proto__")]

/-- JS `obj[key]` on an object literal with own string properties `own`:
own property first, then the prototype chain, then `undefined`. -/
def jsBracketLookup (own : List (String × String)) (key : String) : JsProp :=
  match own.find? (fun p => p.1 == key) with
  | some p => JsProp.str p.2
  | none =>
    if objectPrototypeProps.contains key then JsProp.inherited key else JsProp.undef

/-- JS `v || d`: `undefined` and the empty string are falsy; inherited
function/object values are truthy and pass through unchanged. -/
def jsOrProp (v : JsProp) (d : String) : JsProp :=
  match v with
  | JsProp.undef => JsProp.str d
  | JsProp.str s => if strNonempty s then JsProp.str s else JsProp.str d
  | JsProp.inherited n => JsProp.inherited n

/-- `mapTwilioStatus` (part_001 lines 92-103):
`statusMap[status.toLowerCase()] || 'RINGING'`.  The bracket access
consults the prototype chain, so a key equal to an all-lowercase
`Object.prototype` property name ('constructor', '__proto__') yields
the inherited truthy value and the `|| 'RINGING'` default never fires. -/
def mapTwilioStatus (status : String) : JsProp :=
  jsOrProp (jsBracketLookup statusMap (jsToLower status)) ("RINGING")

/-- A stored `aICall` row (fields touched by the webhook handler). -/
structure AICallRow where
  id : String
  tenantId : String
  phoneNumber : String
  direction : String
  status : String
  twilioCallSid : String
  twilioAccountSid : String
  handledByAI : Bool
  answeredAt : Option JsDate
  endedAt : Option JsDate
deriving Repr, DecidableEq

/-- The `data` object of `prisma.aICall.create` (part_001 lines 40-50);
the `status` field carries whatever value `mapTwilioStatus` produced. -/
structure AICallCreate where
  phoneNumber : String
  direction : String
  status : JsProp
  twilioCallSid : String
  twilioAccountSid : String
  handledByAI : Bool
  tenantId : String
deriving Repr, DecidableEq

/-- The `data` object of `prisma.aICall.update` (part_001 lines 53-60). -/
structure AICallUpdate where
  status : JsProp
  answeredAt : Option JsDate
  endedAt : Option JsDate
deriving Repr, DecidableEq

/-- Form fields read from the Twilio callback (part_001 lines 22-27). -/
structure WebhookForm where
  callSid : String
  callStatus : String
  fromNumber : String
  toNumber : String
  direction : String
  accountSid : String
deriving Repr, DecidableEq

/-- The TwiML voice-response markup returned for ringing / in-progress
calls (part_001 lines 66-79). -/
def twimlGreeting : String :=
  "<?xml version=\"1.0\" encoding=\"UTF-8\"?>\n<Response>\n  <Say voice=\"alice\">Hello, this is an AI assistant. How can I help you today?</Say>\n  <Gather input=\"speech\" action=\"/api/calls/process-speech\" method=\"POST\" speechTimeout=\"auto\">\n    <Say>Please speak your question or request.</Say>\n  </Gather>\n</Response>"

inductive WebhookResponse
  | twiml (xml : String)
  | jsonSuccess
deriving Repr, DecidableEq

structure WebhookOutcome where
  created : Option AICallCreate
  updated : Option AICallUpdate
  response : WebhookResponse
deriving Repr, DecidableEq

/-- `POST /api/calls/webhook` (part_001 lines 6-90): find-or-create the
call record keyed by the vendor call id, then answer with TwiML for
ringing / in-progress calls and `{success:true}` otherwise. -/
def webhookPOST (db : List AICallRow) (now : JsDate) (f : WebhookForm) : WebhookOutcome :=
  let call := db.find? (fun c => c.twilioCallSid == f.callSid)
  let response :=
    if f.callStatus == "ringing" || f.callStatus == "in-progress" then
      WebhookResponse.twiml twimlGreeting
    else WebhookResponse.jsonSuccess
  match call with
  | none =>
    -- "Extract tenant ID from phone number or other method" is a TODO in
    -- the source; the literal 'default' is used (line 38).
    { created := some
        { phoneNumber := if f.direction == "inbound" then f.fromNumber else f.toNumber
          direction := if f.direction == "inbound" then "INBOUND" else "OUTBOUND"
          status := mapTwilioStatus f.callStatus
          twilioCallSid := f.callSid
          twilioAccountSid := f.accountSid
          handledByAI := true
          tenantId := "default" }
      updated := none
      response := response }
  | some c =>
    { created := none
      updated := some
        { status := mapTwilioStatus f.callStatus
          answeredAt := if f.callStatus == "in-progress" then some now else c.answeredAt
          endedAt := if f.callStatus == "completed" then some now else c.endedAt }
      response := response }

/-! ### Theorems for the telephony webhook claims -/

/-- C9 counterexample: the claim's default clause — "every other input
string maps to 'RINGING'" — fails on the source, because the object
literal's bracket access consults `Object.prototype`: the inputs
'Constructor' (lowercased 'constructor') and '__proto__' are not among
the seven keys, yet the lookup returns the inherited truthy
constructor/prototype value, so `|| 'RINGING'` never fires. -/
theorem mapTwilioStatus_prototype_counterexample :
    ((statusMap.map (fun p => p.1)).contains (jsToLower ("Constructor")) = false) ∧
      mapTwilioStatus ("Constructor") = JsProp.inherited ("constructor") ∧
      mapTwilioStatus ("Constructor") ≠ JsProp.str ("RINGING") ∧
      ((statusMap.map (fun p => p.1)).contains (jsToLower ("__proto__")) = false) ∧
      mapTwilioStatus ("__proto__") = JsProp.inherited ("__proto__") ∧
      mapTwilioStatus ("__proto__") ≠ JsProp.str ("RINGING") :=
  ⟨by decide, by decide, by decide, by decide, by decide, by decide⟩

/-- C9 amended: `mapTwilioStatus` is still a pure total function; after
lowercasing, the seven named keys map exactly as listed, and every
other input maps to 'RINGING' — except an input whose lowercasing is an
`Object.prototype` property name (reachably, 'constructor' and
'__proto__', the only all-lowercase ones), where the inherited truthy
value is returned instead of the default. -/
theorem mapTwilioStatus_mapping :
    mapTwilioStatus ("ringing") = JsProp.str ("RINGING") ∧
      mapTwilioStatus ("in-progress") = JsProp.str ("ANSWERED") ∧
      mapTwilioStatus ("completed") = JsProp.str ("COMPLETED") ∧
      mapTwilioStatus ("busy") = JsProp.str ("BUSY") ∧
      mapTwilioStatus ("no-answer") = JsProp.str ("NO_ANSWER") ∧
      mapTwilioStatus ("failed") = JsProp.str ("FAILED") ∧
      mapTwilioStatus ("canceled") = JsProp.str ("FAILED") ∧
      (∀ s : String, (∀ p ∈ statusMap, p.1 ≠ jsToLower s) →
        objectPrototypeProps.contains (jsToLower s) = false →
        mapTwilioStatus s = JsProp.str ("RINGING")) ∧
      (∀ s : String, (∀ p ∈ statusMap, p.1 ≠ jsToLower s) →
        objectPrototypeProps.contains (jsToLower s) = true →
        mapTwilioStatus s = JsProp.inherited (jsToLower s)) := by
  refine ⟨by decide, by decide, by decide, by decide, by decide, by decide, by decide,
    ?_, ?_⟩
  · intro s h hproto
    have hfind : statusMap.find? (fun p => p.1 == jsToLower s) = none := by
      refine List.find?_eq_none.mpr ?_
      intro p hp
      simpa using h p hp
    have hnot : jsToLower s ∉ objectPrototypeProps := by simpa using hproto
    simp [mapTwilioStatus, jsBracketLookup, jsOrProp, hfind, hnot]
  · intro s h hproto
    have hfind : statusMap.find? (fun p => p.1 == jsToLower s) = none := by
      refine List.find?_eq_none.mpr ?_
      intro p hp
      simpa using h p hp
    have hmem : jsToLower s ∈ objectPrototypeProps := by simpa using hproto
    simp [mapTwilioStatus, jsBracketLookup, jsOrProp, hfind, hmem]

/-- Witness for `mapTwilioStatus_mapping`: the default branch fires on
the unknown status 'queued', and the prototype branch on 'Constructor'. -/
theorem mapTwilioStatus_mapping_witness :
    ((∀ p ∈ statusMap, p.1 ≠ jsToLower ("queued")) ∧
        objectPrototypeProps.contains (jsToLower ("queued")) = false ∧
        (∀ p ∈ statusMap, p.1 ≠ jsToLower ("Constructor")) ∧
        objectPrototypeProps.contains (jsToLower ("Constructor")) = true) ∧
      mapTwilioStatus ("queued") = JsProp.str ("RINGING") ∧
      mapTwilioStatus ("Constructor") = JsProp.inherited (jsToLower ("Constructor")) :=
  ⟨⟨by decide, by decide, by decide, by decide⟩,
    (mapTwilioStatus_mapping.2.2.2.2.2.2.2.1) ("queued") (by decide) (by decide),
    (mapTwilioStatus_mapping.2.2.2.2.2.2.2.2) ("Constructor") (by decide) (by decide)⟩

/-- C10: when the webhook receives a callback whose vendor call id has no
existing call record, the newly created call record is assigned the
literal tenant identifier 'default', regardless of caller, callee,
direction or status. -/
theorem webhook_unknown_call_default_tenant
    (db : List AICallRow) (now : JsDate) (f : WebhookForm)
    (h : db.find? (fun c => c.twilioCallSid == f.callSid) = none) :
    ((webhookPOST db now f).created.map (fun c => c.tenantId)) = some ("default") ∧
      (webhookPOST db now f).created =
        some
          { phoneNumber := if f.direction == "inbound" then f.fromNumber else f.toNumber
            direction := if f.direction == "inbound" then "INBOUND" else "OUTBOUND"
            status := mapTwilioStatus f.callStatus
            twilioCallSid := f.callSid
            twilioAccountSid := f.accountSid
            handledByAI := true
            tenantId := "default" } := by
  constructor <;> simp [webhookPOST, h]

/-- Witness for `webhook_unknown_call_default_tenant`: a concrete callback
against an empty call table creates a 'default'-tenant record. -/
theorem webhook_unknown_call_default_tenant_witness :
    (([] : List AICallRow).find?
        (fun c => c.twilioCallSid == (WebhookForm.mk ("CA1") ("ringing") ("+911") ("+922") ("inbound") ("AC1")).callSid) = none) ∧
      ((webhookPOST [] (JsDate.mk 0 ("1/1/2024"))
          (WebhookForm.mk ("CA1") ("ringing") ("+911") ("+922") ("inbound") ("AC1"))).created.map
            (fun c => c.tenantId)) = some ("default") :=
  ⟨by decide,
    (webhook_unknown_call_default_tenant [] (JsDate.mk 0 ("1/1/2024"))
      (WebhookForm.mk ("CA1") ("ringing") ("+911") ("+922") ("inbound") ("AC1")) (by decide)).1⟩

end PayAid
